import Mathlib

/-
Verification development for the telldus-core-mqtt bridge (src/main.py).

The embedding below translates the pure, observable content of `main.py`
into Lean: the mapping tables `METHODS` and `TYPES`, the publish helper
`publish_mqtt`, the inbound command router `subscribe_device.on_message`,
and the event handlers `device_event`, `sensor_event`, `raw_event`,
`initial_publish`.

Stateful / effectful Python code is modelled by returning explicit traces:
a run of a handler yields the list of log events emitted, the list of
controller commands invoked (router) or MQTT publish calls attempted
(handlers), and an optional Python exception.  An exception value records
that the Python function raised at that point: the effects accumulated in
the trace before the raise are exactly those Python performed before the
exception.

The module `src/telldus` (constants, `create_topic`, `create_topic_data`,
device/sensor enumeration) is not part of the provided sources; the
definitions that stand in for it carry doc comments starting
`Modelled from the spec:` and follow the spec text only.
-/

namespace TelldusMqtt

/-- Modelled from the spec: `src/telldus/const.py` is not under src.  The spec
(section 8) fixes the TURNON code to 1; the remaining device-method codes take
the standard telldus-core protocol values (consecutive powers of two).  The
claims only require the codes to be distinct integers with TURNON = 1. -/
def TELLSTICK_TURNON : Int := 1

/-- Modelled from the spec: telldus-core device-method code for turn-off. -/
def TELLSTICK_TURNOFF : Int := 2

/-- Modelled from the spec: telldus-core device-method code for bell. -/
def TELLSTICK_BELL : Int := 4

/-- Modelled from the spec: telldus-core device-method code for toggle. -/
def TELLSTICK_TOGGLE : Int := 8

/-- Modelled from the spec: telldus-core device-method code for dim. -/
def TELLSTICK_DIM : Int := 16

/-- Modelled from the spec: telldus-core device-method code for learn. -/
def TELLSTICK_LEARN : Int := 32

/-- Modelled from the spec: telldus-core device-method code for execute. -/
def TELLSTICK_EXECUTE : Int := 64

/-- Modelled from the spec: telldus-core device-method code for up. -/
def TELLSTICK_UP : Int := 128

/-- Modelled from the spec: telldus-core device-method code for down. -/
def TELLSTICK_DOWN : Int := 256

/-- Modelled from the spec: telldus-core device-method code for stop. -/
def TELLSTICK_STOP : Int := 512

/-- Modelled from the spec: telldus-core sensor-type code for temperature. -/
def TELLSTICK_TEMPERATURE : Int := 1

/-- Modelled from the spec: telldus-core sensor-type code for humidity. -/
def TELLSTICK_HUMIDITY : Int := 2

/-- Modelled from the spec: telldus-core sensor-type code for rain rate. -/
def TELLSTICK_RAINRATE : Int := 4

/-- Modelled from the spec: telldus-core sensor-type code for rain total. -/
def TELLSTICK_RAINTOTAL : Int := 8

/-- Modelled from the spec: telldus-core sensor-type code for wind direction. -/
def TELLSTICK_WINDDIRECTION : Int := 16

/-- Modelled from the spec: telldus-core sensor-type code for wind average. -/
def TELLSTICK_WINDAVERAGE : Int := 32

/-- Modelled from the spec: telldus-core sensor-type code for wind gust. -/
def TELLSTICK_WINDGUST : Int := 64

/-! ### Python string primitives

`str.split(sep)` for a one-character separator and `int(str)` are embedded
as structurally recursive functions on the character list of the string, so
that every concrete instance evaluates by `decide` / `rfl`. -/

/-- One step of Python `str.split('/')`: split a character list at every
occurrence of `sep`, keeping empty pieces, accumulating the current piece in
reverse in `acc`.  `"".split(sep)` yields `[""]` and a trailing separator
yields a trailing empty piece, exactly as in Python. -/
def splitAux (sep : Char) : List Char → List Char → List (List Char)
  | [], acc => [acc.reverse]
  | c :: cs, acc =>
    if c = sep then acc.reverse :: splitAux sep cs []
    else splitAux sep cs (c :: acc)

/-- Python `s.split(sep)` for a single-character separator, as used by
`msg.topic.split('/')` in `on_message` (src/main.py lines 72-74). -/
def pySplit (s : String) (sep : Char) : List String :=
  (splitAux sep s.data []).map String.mk

/-- The whitespace characters stripped by Python `int()` before parsing. -/
def pyIsSpace (c : Char) : Bool :=
  c == ' ' || c == '\t' || c == '\n' || c == '\r' || c == '\x0b' || c == '\x0c'

/-- Strip Python whitespace from both ends of a character list. -/
def stripOuter (l : List Char) : List Char :=
  ((l.dropWhile pyIsSpace).reverse.dropWhile pyIsSpace).reverse

/-- After its first character, a Python decimal digit run may contain single
underscores, each followed by a further digit. -/
def pyDigitRunRest : List Char → Bool
  | [] => true
  | '_' :: c :: cs => c.isDigit && pyDigitRunRest cs
  | c :: cs => c.isDigit && pyDigitRunRest cs

/-- A valid Python decimal digit run: nonempty, starts with a digit,
underscores only singly and between digits (`int("1_0")` is 10, while
`int("_1")`, `int("1_")`, `int("1__0")` all raise ValueError). -/
def pyDigitRun : List Char → Bool
  | [] => false
  | c :: cs => c.isDigit && pyDigitRunRest (c :: cs) && pyDigitRunRest cs

/-- Numeric value of a digit run (underscores already removed). -/
def digitsVal (l : List Char) : Nat :=
  l.foldl (fun a c => a * 10 + (c.toNat - 48)) 0

/-- Value of a digit run that may still contain grouping underscores. -/
def runVal (l : List Char) : Int :=
  Int.ofNat (digitsVal (l.filter fun c => c != '_'))

/-- Python `int(s)` in base 10: strips surrounding whitespace, accepts an
optional `+` or `-` sign directly followed by a digit run, and returns
`none` where Python raises `ValueError`.  (Non-ASCII unicode digits, which
Python also accepts, are not modelled; no claim involves them.) -/
def pyInt (s : String) : Option Int :=
  match stripOuter s.data with
  | '+' :: rest => if pyDigitRun rest then some (runVal rest) else none
  | '-' :: rest => if pyDigitRun rest then some (-(runVal rest)) else none
  | l => if pyDigitRun l then some (runVal l) else none

/-! ### The mapping tables (src/main.py lines 18-35)

Python `dict.get(key, default)` over a literal dict with distinct keys is
embedded as a conditional chain over the keys in insertion order. -/

/-- `METHODS.get(method, default)` (src/main.py lines 26-35). -/
def METHODS_get (method : Int) (default : String) : String :=
  if method = TELLSTICK_TURNON then "turn on"
  else if method = TELLSTICK_TURNOFF then "turn off"
  else if method = TELLSTICK_BELL then "bell"
  else if method = TELLSTICK_TOGGLE then "toggle"
  else if method = TELLSTICK_DIM then "dim"
  else if method = TELLSTICK_LEARN then "learn"
  else if method = TELLSTICK_EXECUTE then "execute"
  else if method = TELLSTICK_UP then "up"
  else if method = TELLSTICK_DOWN then "down"
  else if method = TELLSTICK_STOP then "stop"
  else default

/-- The keys of the `METHODS` dict, in insertion order. -/
def knownMethodCodes : List Int :=
  [TELLSTICK_TURNON, TELLSTICK_TURNOFF, TELLSTICK_BELL, TELLSTICK_TOGGLE,
   TELLSTICK_DIM, TELLSTICK_LEARN, TELLSTICK_EXECUTE, TELLSTICK_UP,
   TELLSTICK_DOWN, TELLSTICK_STOP]

/-- The method-name lookup of `device_event` (src/main.py line 130):
`METHODS.get(method, 'UNKNOWN METHOD ...'.format(method))`. -/
def methodString (method : Int) : String :=
  METHODS_get method ("UNKNOWN METHOD " ++ toString method)

/-- `TYPES.get(data_type, default)` (src/main.py lines 18-24). -/
def TYPES_get (data_type : Int) (default : String) : String :=
  if data_type = TELLSTICK_TEMPERATURE then "temperature"
  else if data_type = TELLSTICK_HUMIDITY then "humidity"
  else if data_type = TELLSTICK_RAINRATE then "rainrate"
  else if data_type = TELLSTICK_RAINTOTAL then "raintotal"
  else if data_type = TELLSTICK_WINDDIRECTION then "winddirection"
  else if data_type = TELLSTICK_WINDAVERAGE then "windaverage"
  else if data_type = TELLSTICK_WINDGUST then "windgust"
  else default

/-- The keys of the `TYPES` dict, in insertion order. -/
def knownTypeCodes : List Int :=
  [TELLSTICK_TEMPERATURE, TELLSTICK_HUMIDITY, TELLSTICK_RAINRATE,
   TELLSTICK_RAINTOTAL, TELLSTICK_WINDDIRECTION, TELLSTICK_WINDAVERAGE,
   TELLSTICK_WINDGUST]

/-- The sensor-type lookup of `sensor_event` (src/main.py line 159):
`TYPES.get(data_type, 'UNKNOWN METHOD ...'.format(data_type))`. -/
def typeString (data_type : Int) : String :=
  TYPES_get data_type ("UNKNOWN METHOD " ++ toString data_type)

/-! ### Observable effects: log events, controller commands, publish calls -/

/-- Python logging levels used in `main.py`. -/
inductive LogLevel where
  | debug
  | info
  | error
  | critical
deriving DecidableEq

/-- One log call, one constructor per `logging.*` call site reached by the
embedded functions, carrying the interpolated arguments.  (The
unsupported-command error at src/main.py line 105 interpolates the whole
`MQTTMessage` object; it is represented here by the message's topic and
payload, the data that identify it.) -/
inductive LogEvent where
  | receivedMsg (payload : String) (topic : String)
  | sendDim (payload : Int) (device : String)
  | lightOff (payload : Int) (device : String)
  | lightOnOnce (payload : Int) (device : String)
  | unknownLightAction (action : String)
  | brightnessDim (payload : Int) (device : String)
  | switchOn (device : String)
  | switchOff (device : String)
  | cmdNotSupported (topic : String) (payload : String)
  | dimmerDebug (text : String)
  | lightDebug (text : String)
  | switchDebug (text : String)
  | sensorDebug (text : String)
  | sendSuccess (msg : String) (topic : String)
  | sendFailure (topic : String)
deriving DecidableEq

/-- The logging level of each call site. -/
def LogEvent.level : LogEvent → LogLevel
  | .receivedMsg .. => .info
  | .sendDim .. => .info
  | .lightOff .. => .info
  | .lightOnOnce .. => .info
  | .unknownLightAction .. => .info
  | .brightnessDim .. => .info
  | .switchOn .. => .info
  | .switchOff .. => .info
  | .cmdNotSupported .. => .error
  | .dimmerDebug .. => .debug
  | .lightDebug .. => .debug
  | .switchDebug .. => .debug
  | .sensorDebug .. => .debug
  | .sendSuccess .. => .info
  | .sendFailure .. => .error

/-- Number of error-level entries in a log trace. -/
def errorCount (logs : List LogEvent) : Nat :=
  (logs.filter fun e => e.level == LogLevel.error).length

/-- A controller command invoked by the inbound router: one constructor per
`d.*` call in `on_message`.  The device argument is the string the router
passes (Python never converts it to an integer). -/
inductive Cmd where
  | dim (device : String) (level : Int)
  | turn_off (device : String)
  | turn_on_once (device : String)
  | turn_on (device : String)
deriving DecidableEq

/-- The device-id argument a command carries. -/
def Cmd.device : Cmd → String
  | .dim d _ => d
  | .turn_off d => d
  | .turn_on_once d => d
  | .turn_on d => d

/-- Python exceptions the embedded functions can raise. -/
inductive PyExc where
  | indexError
  | valueError
  | unboundLocalError
deriving DecidableEq

/-- One call of `client.publish(topic, msg, retain=...)`. -/
structure PublishCall where
  topic : String
  payload : String
  retain : Bool
deriving DecidableEq

/-- A run of the inbound command router: logs emitted, controller commands
invoked, and the exception raised, if any. -/
structure RouterRun where
  logs : List LogEvent
  commands : List Cmd
  exc : Option PyExc
deriving DecidableEq

/-- A run of an outbound event handler: logs emitted, publish calls
attempted, and the exception raised, if any. -/
structure HandlerRun where
  logs : List LogEvent
  publishes : List PublishCall
  exc : Option PyExc
deriving DecidableEq

/-! ### The publisher (src/main.py lines 55-62) -/

/-- The call `publish_mqtt` makes on its client: `client.publish(topic, msg,
retain=True)` (src/main.py line 57).  Every publication in `main.py` goes
through `publish_mqtt`, hence through this constructor. -/
def publish_call (topic : String) (msg : String) : PublishCall :=
  ⟨topic, msg, true⟩

/-- `publish_mqtt(client, topic, msg)` (src/main.py lines 55-62).  The
broker acknowledgement `result[0]` is the parameter `rc`.  The function is
total (never raises) and returns the single publish attempt it makes plus
the one log entry it emits: info on `rc = 0`, error otherwise.  The lock
acquisition is invisible to a single sequential run and is not modelled. -/
def publish_mqtt (topic : String) (msg : String) (rc : Int) :
    List PublishCall × LogEvent :=
  ([publish_call topic msg],
   if rc = 0 then LogEvent.sendSuccess msg topic else LogEvent.sendFailure topic)

/-! ### Topic construction (spec-modelled, `src/telldus` is not under src) -/

/-- Modelled from the spec: `telldus.Device.create_topic`,
`Sensor.create_topic` and `Command.create_topic` are not under src.  Spec
section 6 gives the outbound state-topic shape
`<state_topic>/<entity_id>/<capability>/state`, pure string composition
(section 4.2). -/
def create_topic (state_topic : String) (id_ : Int) (capability : String) : String :=
  state_topic ++ "/" ++ toString id_ ++ "/" ++ capability ++ "/state"

/-- Modelled from the spec: `create_topic_data` is not under src.  Spec
section 4.2 `build_state` pairs the topic with the serialized current
value; values are modelled as integers, serialized in decimal. -/
def create_topic_data (capability : String) (value : Int) : String :=
  toString value

/-- A `config`/`state` entry of the topic lists produced by the external
`create_topics` enumeration (a Python dict which may hold a `config` key, a
`state` key, or both); payload data of these entries is opaque here. -/
structure TopicPair where
  topic : String
  data : String
deriving DecidableEq

/-- One element of a `create_topics(...)` result. -/
structure TopicEntry where
  config : Option TopicPair
  state : Option TopicPair
deriving DecidableEq

/-- The publishes of one `TopicEntry` in `initial_publish`: the `config`
pair when present, then the `state` pair when present. -/
def entryPublishes (t : TopicEntry) : List PublishCall :=
  (match t.config with
   | none => []
   | some p => [publish_call p.topic p.data]) ++
  (match t.state with
   | none => []
   | some p => [publish_call p.topic p.data])

/-- `initial_publish(client_mqtt, topics)` (src/main.py lines 174-181):
publishes each entry's `config` pair and `state` pair, in list order. -/
def initial_publish (topics : List TopicEntry) : List PublishCall :=
  topics.foldr (fun t acc => entryPublishes t ++ acc) []

/-- Whether `needle` is an initial segment of `hay`. -/
def listStartsWith : List Char → List Char → Bool
  | [], _ => true
  | _ :: _, [] => false
  | a :: as, b :: bs => a == b && listStartsWith as bs

/-- Python `needle in hay` for strings, on character lists: `needle` occurs
as a contiguous substring of `hay`. -/
def listContains (needle : List Char) : List Char → Bool
  | [] => needle.isEmpty
  | c :: cs => listStartsWith needle (c :: cs) || listContains needle cs

/-! ### The inbound command router (src/main.py lines 68-106) -/

/-- `subscribe_device.on_message(client, userdata, msg)` (src/main.py lines
68-106), with `msg` given by its topic and its decoded payload string.  The
body, in Python order: log the received message; index segments 1, 2 and 3
of `msg.topic.split('/')` (an `IndexError` when the topic has fewer than
four segments — observably identical whichever of the three lookups is the
first to fail); parse the payload with `int(...)` (a `ValueError` on a
non-integer payload); then dispatch on the capability segment.  Note that
for the `switch` capability with a payload equal to neither the TURNON nor
the TURNOFF code the chain falls through silently, and that the
unsupported-command error arm is an `elif` of the capability chain, reached
only when the capability is none of `light`, `brightness`, `switch`. -/
def on_message (topic : String) (payloadRaw : String) : RouterRun :=
  let received := LogEvent.receivedMsg payloadRaw topic
  match pySplit topic '/' with
  | _ :: device_id :: module :: action :: _ =>
    match pyInt payloadRaw with
    | none => ⟨[received], [], some PyExc.valueError⟩
    | some payload =>
      if module = "light" then
        if action = "dim" then
          ⟨[received, LogEvent.sendDim payload device_id],
           [Cmd.dim device_id payload], none⟩
        else if action = "set" then
          if payload = 0 then
            ⟨[received, LogEvent.lightOff payload device_id],
             [Cmd.turn_off device_id], none⟩
          else
            ⟨[received, LogEvent.lightOnOnce payload device_id],
             [Cmd.turn_on_once device_id], none⟩
        else
          ⟨[received, LogEvent.unknownLightAction action], [], none⟩
      else if module = "brightness" then
        ⟨[received, LogEvent.brightnessDim payload device_id],
         [Cmd.dim device_id payload], none⟩
      else if module = "switch" then
        if payload = TELLSTICK_TURNON then
          ⟨[received, LogEvent.switchOn device_id], [Cmd.turn_on device_id], none⟩
        else if payload = TELLSTICK_TURNOFF then
          ⟨[received, LogEvent.switchOff device_id], [Cmd.turn_off device_id], none⟩
        else
          ⟨[received], [], none⟩
      else
        ⟨[received, LogEvent.cmdNotSupported topic payloadRaw], [], none⟩
  | _ => ⟨[received], [], some PyExc.indexError⟩

/-- The raw string of the topic's second `/`-separated segment — the value
`msg.topic.split('/')[1]` that `on_message` passes to every controller
command as the device id (src/main.py line 72). -/
def secondSegment (topic : String) : String :=
  match pySplit topic '/' with
  | _ :: s :: _ => s
  | _ => ""

/-! ### The outbound event handlers (src/main.py lines 111-171) -/

/-- `device_event(id_, method, data, cid)` (src/main.py lines 128-155), with
the configured `state_topic` prefix made explicit and the unused callback
id `cid` omitted.  In the hardcoded dimmer branch (ids 8-12), a method
other than TURNOFF, TURNON and DIM leaves the Python locals `topic` and
`topic_data` unassigned, so the final `publish_mqtt(mqtt_device, topic,
topic_data)` raises `UnboundLocalError` after the debug log: no publish is
attempted. -/
def device_event (state_topic : String) (id_ : Int) (method : Int) (data : Int) :
    HandlerRun :=
  let method_string := methodString method
  let string := "[DEVICE] " ++ toString id_ ++ " -> " ++ method_string ++
    " (" ++ toString method ++ ")" ++
    (if method = TELLSTICK_DIM then " [" ++ toString data ++ "]" else "")
  if id_ = 8 ∨ id_ = 9 ∨ id_ = 10 ∨ id_ = 11 ∨ id_ = 12 then
    if method = TELLSTICK_TURNOFF then
      ⟨[LogEvent.dimmerDebug string],
       [publish_call (create_topic state_topic id_ "light")
         (create_topic_data "light" 0)], none⟩
    else if method = TELLSTICK_TURNON then
      ⟨[LogEvent.dimmerDebug string],
       [publish_call (create_topic state_topic id_ "light")
         (create_topic_data "light" 255)], none⟩
    else if method = TELLSTICK_DIM then
      ⟨[LogEvent.dimmerDebug string],
       [publish_call (create_topic state_topic id_ "brightness")
         (create_topic_data "brightness" data)], none⟩
    else
      ⟨[LogEvent.dimmerDebug string], [], some PyExc.unboundLocalError⟩
  else if method = TELLSTICK_DIM then
    ⟨[LogEvent.lightDebug string],
     [publish_call (create_topic state_topic id_ "brightness")
       (create_topic_data "brightness" data)], none⟩
  else
    ⟨[LogEvent.switchDebug string],
     [publish_call (create_topic state_topic id_ "switch")
       (create_topic_data "switch" method)], none⟩

/-- `sensor_event(protocol, model, id_, data_type, value, timestamp, cid)`
(src/main.py lines 157-171), with the `state_topic` prefix explicit, the
unused `cid` omitted, and `discovery` standing for the externally computed
`s.create_topics(s.get(id_))` result (the sensor enumeration lives in the
`src/telldus` module, not under src).  The handler logs one debug line,
re-publishes the discovery topics via `initial_publish`, then publishes the
state value under the looked-up type name — the sentinel string itself when
`data_type` is unknown. -/
def sensor_event (state_topic : String) (discovery : List TopicEntry)
    (protocol : String) (model : String) (id_ : Int) (data_type : Int)
    (value : Int) (timestamp : String) : HandlerRun :=
  let type_string := typeString data_type
  let string := "[SENSOR] " ++ toString id_ ++ " " ++ model ++
    " (" ++ type_string ++ ") = " ++ toString value
  ⟨[LogEvent.sensorDebug string],
   initial_publish discovery ++
     [publish_call (create_topic state_topic id_ type_string)
       (create_topic_data type_string value)],
   none⟩

/-- `raw_event(data, controller_id, cid)` (src/main.py lines 111-125), with
the `state_topic` prefix explicit, the unused arguments omitted, and the
externally computed values made parameters: `discovery` stands for
`raw.create_topics(raw.get(data))` and `sid`/`smethod` for
`raw.serialized['id']` / `raw.serialized['method']` (the `telldus.Command`
parser is not under src).  Events whose raw data string does not contain
`command` are ignored. -/
def raw_event (state_topic : String) (data : String)
    (discovery : List TopicEntry) (sid : Int) (smethod : Int) : HandlerRun :=
  if listContains "command".data data.data then
    ⟨[],
     initial_publish discovery ++
       [publish_call (create_topic state_topic sid "binary_sensor")
         (create_topic_data "binary_sensor" smethod)],
     none⟩
  else
    ⟨[], [], none⟩

/-! ### Helper lemmas -/

/-- Unfolding `initial_publish` one entry at a time. -/
theorem initial_publish_cons (t : TopicEntry) (ts : List TopicEntry) :
    initial_publish (t :: ts) = entryPublishes t ++ initial_publish ts := rfl

/-- Every publish of a single topic entry is retained. -/
theorem entryPublishes_retain (t : TopicEntry) :
    (entryPublishes t).all (fun pc => pc.retain) = true := by
  rcases t with ⟨c, s⟩
  cases c <;> cases s <;> simp [entryPublishes, publish_call]

/-- Every publish of `initial_publish` is retained. -/
theorem initial_publish_retain (topics : List TopicEntry) :
    (initial_publish topics).all (fun pc => pc.retain) = true := by
  induction topics with
  | nil => rfl
  | cons t ts ih =>
    rw [initial_publish_cons, List.all_append, ih, entryPublishes_retain]
    rfl

/-- An unknown sensor-type code falls through to the sentinel default. -/
theorem typeString_unknown (dt : Int) (h : dt ∉ knownTypeCodes) :
    typeString dt = "UNKNOWN METHOD " ++ toString dt := by
  simp only [knownTypeCodes, List.mem_cons, List.not_mem_nil, or_false,
    not_or] at h
  obtain ⟨h1, h2, h3, h4, h5, h6, h7⟩ := h
  simp [typeString, TYPES_get, h1, h2, h3, h4, h5, h6, h7]

/-! ### The claims -/

/-- C9: for every known DeviceEventCode, the method-name lookup returns its
documented lowercase name, and for every other integer code it returns
exactly the sentinel string `UNKNOWN METHOD` followed by the decimal code. -/
theorem c9_thm :
    (methodString TELLSTICK_TURNON = "turn on" ∧
     methodString TELLSTICK_TURNOFF = "turn off" ∧
     methodString TELLSTICK_BELL = "bell" ∧
     methodString TELLSTICK_TOGGLE = "toggle" ∧
     methodString TELLSTICK_DIM = "dim" ∧
     methodString TELLSTICK_LEARN = "learn" ∧
     methodString TELLSTICK_EXECUTE = "execute" ∧
     methodString TELLSTICK_UP = "up" ∧
     methodString TELLSTICK_DOWN = "down" ∧
     methodString TELLSTICK_STOP = "stop") ∧
    ∀ code : Int, code ∉ knownMethodCodes →
      methodString code = "UNKNOWN METHOD " ++ toString code := by
  refine ⟨by decide, ?_⟩
  intro code hc
  simp only [knownMethodCodes, List.mem_cons, List.not_mem_nil, or_false,
    not_or] at hc
  obtain ⟨h1, h2, h3, h4, h5, h6, h7, h8, h9, h10⟩ := hc
  simp [methodString, METHODS_get, h1, h2, h3, h4, h5, h6, h7, h8, h9, h10]

/-- Witness for C9: the code 3 is not a known method code, and its lookup
yields the interpolated sentinel. -/
theorem c9_wit :
    (3 : Int) ∉ knownMethodCodes ∧ methodString 3 = "UNKNOWN METHOD 3" :=
  ⟨by decide, c9_thm.2 3 (by decide)⟩

/-- C8: `publish_mqtt` performs exactly one publish attempt and returns
normally (it is a total function of the broker acknowledgement `rc`);
`rc = 0` yields the success info log and any other `rc` the error log. -/
theorem c8_thm (topic msg : String) (rc : Int) :
    (publish_mqtt topic msg rc).1.length = 1 ∧
    (rc = 0 → (publish_mqtt topic msg rc).2.level = LogLevel.info) ∧
    (rc ≠ 0 → (publish_mqtt topic msg rc).2.level = LogLevel.error) := by
  refine ⟨rfl, fun h => ?_, fun h => ?_⟩ <;>
    simp [publish_mqtt, h, LogEvent.level]

/-- Witness for C8: a zero acknowledgement logs at info level and a nonzero
one at error level, each after a single attempt. -/
theorem c8_wit :
    (publish_mqtt "telldus/1/light/state" "255" 0).1.length = 1 ∧
    (publish_mqtt "telldus/1/light/state" "255" 0).2.level = LogLevel.info ∧
    (publish_mqtt "telldus/1/light/state" "255" 4).2.level = LogLevel.error :=
  ⟨(c8_thm "telldus/1/light/state" "255" 0).1,
   (c8_thm "telldus/1/light/state" "255" 0).2.1 rfl,
   (c8_thm "telldus/1/light/state" "255" 4).2.2 (by decide)⟩

/-- C7: every outbound publish sets the retain flag: `publish_mqtt` always
publishes with `retain = true`, and each publication path of the bridge —
the device, sensor and raw event handlers and the initial publish sweep —
emits only such calls. -/
theorem c7_thm :
    (∀ topic msg rc,
      ((publish_mqtt topic msg rc).1.all fun pc => pc.retain) = true) ∧
    (∀ st id_ method data,
      ((device_event st id_ method data).publishes.all fun pc => pc.retain) = true) ∧
    (∀ st disc proto mdl id_ dt v ts,
      ((sensor_event st disc proto mdl id_ dt v ts).publishes.all
        fun pc => pc.retain) = true) ∧
    (∀ st data disc sid sm,
      ((raw_event st data disc sid sm).publishes.all fun pc => pc.retain) = true) ∧
    (∀ topics, ((initial_publish topics).all fun pc => pc.retain) = true) := by
  refine ⟨fun topic msg rc => rfl, fun st id_ method data => ?_,
    fun st disc proto mdl id_ dt v ts => ?_, fun st data disc sid sm => ?_,
    initial_publish_retain⟩
  · simp only [device_event]
    split_ifs <;> rfl
  · simp [sensor_event, List.all_append, initial_publish_retain, publish_call]
  · simp only [raw_event]
    split_ifs <;>
      simp [List.all_append, initial_publish_retain, publish_call]

/-- C10: the device-id argument of every controller command the router
invokes is the verbatim second `/`-separated segment of the topic, never
converted or validated: for every topic and payload, each invoked command
carries exactly `secondSegment topic`. -/
theorem c10_thm (topic payloadRaw : String) :
    ((on_message topic payloadRaw).commands.all
      fun c => c.device == secondSegment topic) = true := by
  rcases hp : pySplit topic '/' with _ | ⟨a, _ | ⟨b, l⟩⟩
  · simp [on_message, hp]
  · simp [on_message, secondSegment, hp]
  · rcases l with _ | ⟨c, _ | ⟨d, rest⟩⟩
    · simp [on_message, secondSegment, hp]
    · simp [on_message, secondSegment, hp]
    · simp only [on_message, secondSegment, hp]
      cases pyInt payloadRaw with
      | none => rfl
      | some payload =>
        repeat' split
        all_goals simp [Cmd.device]

/-- C4: dispatch of a well-formed inbound command.  Stated for any topic
with exactly four `/`-separated segments; the action the router examines is
the fourth segment, so on topics ending in `set` (the subscribed pattern)
this specializes to the claim, the `light`/`dim` row being unreachable
there.  Each listed capability/payload combination invokes exactly the one
listed controller command and no other. -/
theorem c4_thm (topic payloadRaw p dev cap act : String) (n : Int)
    (hsplit : pySplit topic '/' = [p, dev, cap, act])
    (hpay : pyInt payloadRaw = some n) :
    (cap = "light" → act = "dim" →
      (on_message topic payloadRaw).commands = [Cmd.dim dev n]) ∧
    (cap = "light" → act = "set" → n = 0 →
      (on_message topic payloadRaw).commands = [Cmd.turn_off dev]) ∧
    (cap = "light" → act = "set" → n ≠ 0 →
      (on_message topic payloadRaw).commands = [Cmd.turn_on_once dev]) ∧
    (cap = "brightness" →
      (on_message topic payloadRaw).commands = [Cmd.dim dev n]) ∧
    (cap = "switch" → n = TELLSTICK_TURNON →
      (on_message topic payloadRaw).commands = [Cmd.turn_on dev]) ∧
    (cap = "switch" → n = TELLSTICK_TURNOFF →
      (on_message topic payloadRaw).commands = [Cmd.turn_off dev]) := by
  refine ⟨fun hc ha => ?_, fun hc ha h0 => ?_, fun hc ha h0 => ?_,
    fun hc => ?_, fun hc hn => ?_, fun hc hn => ?_⟩
  · subst hc; subst ha; simp [on_message, hsplit, hpay]
  · subst hc; subst ha; subst h0; simp [on_message, hsplit, hpay]
  · subst hc; subst ha; simp [on_message, hsplit, hpay, h0]
  · subst hc; simp [on_message, hsplit, hpay]
  · subst hc; subst hn
    simp [on_message, hsplit, hpay, TELLSTICK_TURNON, TELLSTICK_TURNOFF]
  · subst hc; subst hn
    simp [on_message, hsplit, hpay, TELLSTICK_TURNON, TELLSTICK_TURNOFF]

/-- Witness for C4: the inbound message on `telldus/5/switch/set` with
payload `1` (the TURNON code) invokes exactly `turn_on("5")`. -/
theorem c4_wit :
    (on_message "telldus/5/switch/set" "1").commands = [Cmd.turn_on "5"] :=
  (c4_thm "telldus/5/switch/set" "1" "telldus" "5" "switch" "set" 1
    (by decide) (by decide)).2.2.2.2.1 rfl rfl

/-- C5: on the hardcoded dimmer ids, TURNOFF publishes the light topic with
payload 0, TURNON the light topic with payload 255, and DIM the brightness
topic with the data value; outside that id set, DIM likewise publishes the
brightness topic with the data value. -/
theorem c5_thm (st : String) (idIn idOut data : Int)
    (hin : idIn = 8 ∨ idIn = 9 ∨ idIn = 10 ∨ idIn = 11 ∨ idIn = 12)
    (hout : ¬(idOut = 8 ∨ idOut = 9 ∨ idOut = 10 ∨ idOut = 11 ∨ idOut = 12)) :
    (device_event st idIn TELLSTICK_TURNOFF data).publishes =
      [publish_call (create_topic st idIn "light")
        (create_topic_data "light" 0)] ∧
    (device_event st idIn TELLSTICK_TURNON data).publishes =
      [publish_call (create_topic st idIn "light")
        (create_topic_data "light" 255)] ∧
    (device_event st idIn TELLSTICK_DIM data).publishes =
      [publish_call (create_topic st idIn "brightness")
        (create_topic_data "brightness" data)] ∧
    (device_event st idOut TELLSTICK_DIM data).publishes =
      [publish_call (create_topic st idOut "brightness")
        (create_topic_data "brightness" data)] := by
  refine ⟨?_, ?_, ?_, ?_⟩ <;>
    simp [device_event, hin, hout, TELLSTICK_TURNON, TELLSTICK_TURNOFF,
      TELLSTICK_DIM]

/-- Witness for C5: id 8 is a dimmer id and id 1 is not; TURNOFF on 8
publishes `telldus/8/light/state` with payload `0`, TURNON payload `255`,
and DIM with data 128 publishes `telldus/1/brightness/state` payload `128`. -/
theorem c5_wit :
    (device_event "telldus" 8 TELLSTICK_TURNOFF 128).publishes =
      [publish_call (create_topic "telldus" 8 "light")
        (create_topic_data "light" 0)] ∧
    (device_event "telldus" 8 TELLSTICK_TURNON 128).publishes =
      [publish_call (create_topic "telldus" 8 "light")
        (create_topic_data "light" 255)] ∧
    (device_event "telldus" 8 TELLSTICK_DIM 128).publishes =
      [publish_call (create_topic "telldus" 8 "brightness")
        (create_topic_data "brightness" 128)] ∧
    (device_event "telldus" 1 TELLSTICK_DIM 128).publishes =
      [publish_call (create_topic "telldus" 1 "brightness")
        (create_topic_data "brightness" 128)] :=
  c5_thm "telldus" 8 1 128 (Or.inl rfl) (by decide)

/-- Counterexample for C3: the device event with the dimmer id 8 and the
BELL method (code 4, none of TURNON, TURNOFF, DIM) publishes nothing at
all — the handler raises `UnboundLocalError` because no branch of the
dimmer arm assigned `topic` — so no switch-capability publish is made. -/
theorem c3_cex :
    (device_event "telldus" 8 TELLSTICK_BELL 0).publishes = [] ∧
    (device_event "telldus" 8 TELLSTICK_BELL 0).exc =
      some PyExc.unboundLocalError := ⟨rfl, rfl⟩

/-- C3 as amended: for a method code that is none of TURNON, TURNOFF and
DIM, a device id outside the hardcoded dimmer set {8, 9, 10, 11, 12} gets
exactly one publish, on its switch-capability topic with the numeric method
code as payload; a device id inside the set gets no publish at all, the
handler raising `UnboundLocalError` instead. -/
theorem c3_thm (st : String) (idIn idOut method data : Int)
    (hin : idIn = 8 ∨ idIn = 9 ∨ idIn = 10 ∨ idIn = 11 ∨ idIn = 12)
    (hout : ¬(idOut = 8 ∨ idOut = 9 ∨ idOut = 10 ∨ idOut = 11 ∨ idOut = 12))
    (h1 : method ≠ TELLSTICK_TURNON) (h2 : method ≠ TELLSTICK_TURNOFF)
    (h3 : method ≠ TELLSTICK_DIM) :
    (device_event st idOut method data).publishes =
      [publish_call (create_topic st idOut "switch")
        (create_topic_data "switch" method)] ∧
    (device_event st idOut method data).exc = none ∧
    (device_event st idIn method data).publishes = [] ∧
    (device_event st idIn method data).exc = some PyExc.unboundLocalError := by
  refine ⟨?_, ?_, ?_, ?_⟩ <;> simp [device_event, hin, hout, h1, h2, h3]

/-- Witness for C3 as amended: with the BELL method, id 1 (not a dimmer id)
publishes `telldus/1/switch/state` with payload `4` and nothing else, while
id 9 (a dimmer id) publishes nothing and raises. -/
theorem c3_wit :
    (device_event "telldus" 1 TELLSTICK_BELL 0).publishes =
      [publish_call (create_topic "telldus" 1 "switch")
        (create_topic_data "switch" TELLSTICK_BELL)] ∧
    (device_event "telldus" 1 TELLSTICK_BELL 0).exc = none ∧
    (device_event "telldus" 9 TELLSTICK_BELL 0).publishes = [] ∧
    (device_event "telldus" 9 TELLSTICK_BELL 0).exc =
      some PyExc.unboundLocalError :=
  c3_thm "telldus" 9 1 TELLSTICK_BELL 0 (by decide) (by decide)
    (by decide) (by decide) (by decide)

/-- Counterexample for C1: on the three-segment topic `telldus/5/light`
with payload `0`, the router invokes no controller command but also logs no
error at all and does not return normally: it raises `IndexError` at the
topic indexing, contradicting the claimed one-error-logged normal return. -/
theorem c1_cex :
    (on_message "telldus/5/light" "0").commands = [] ∧
    errorCount (on_message "telldus/5/light" "0").logs = 0 ∧
    (on_message "telldus/5/light" "0").exc = some PyExc.indexError :=
  ⟨rfl, rfl, rfl⟩

/-- C1 as amended: a malformed inbound message invokes zero controller
commands, but no error is logged and the handler does not return normally:
a topic with fewer than four `/`-separated segments raises `IndexError` at
the segment indexing, and a well-segmented topic with a non-integer payload
raises `ValueError` at `int(...)`, in both cases right after the single
received-message info log. -/
theorem c1_thm (topic payloadRaw : String) :
    ((pySplit topic '/').length < 4 →
      on_message topic payloadRaw =
        ⟨[LogEvent.receivedMsg payloadRaw topic], [], some PyExc.indexError⟩) ∧
    (4 ≤ (pySplit topic '/').length → pyInt payloadRaw = none →
      on_message topic payloadRaw =
        ⟨[LogEvent.receivedMsg payloadRaw topic], [], some PyExc.valueError⟩) ∧
    (((pySplit topic '/').length < 4 ∨ pyInt payloadRaw = none) →
      (on_message topic payloadRaw).commands = [] ∧
      errorCount (on_message topic payloadRaw).logs = 0 ∧
      (on_message topic payloadRaw).exc ≠ none) := by
  rcases hp : pySplit topic '/' with _ | ⟨a, _ | ⟨b, _ | ⟨c, _ | ⟨d, rest⟩⟩⟩⟩
  case nil | cons.nil | cons.cons.nil | cons.cons.cons.nil =>
    refine ⟨fun _ => ?_, fun hlen _ => ?_, fun _ => ?_⟩
    · simp [on_message, hp]
    · simp at hlen
    · simp [on_message, hp, errorCount, LogEvent.level]
  case cons.cons.cons.cons =>
    have hlen4 : ¬(a :: b :: c :: d :: rest).length < 4 := by
      simp only [List.length_cons]
      omega
    refine ⟨fun h => absurd h hlen4, fun _ hpay => ?_, fun h => ?_⟩
    · simp [on_message, hp, hpay]
    · rcases h with h | hpay
      · exact absurd h hlen4
      · simp [on_message, hp, hpay, errorCount, LogEvent.level]

/-- Witness for C1 as amended: a three-segment topic raises `IndexError`
and a four-segment topic with a non-integer payload raises `ValueError`,
in each case with no controller command invoked. -/
theorem c1_wit :
    on_message "telldus/5/light" "7" =
      ⟨[LogEvent.receivedMsg "7" "telldus/5/light"], [],
       some PyExc.indexError⟩ ∧
    on_message "telldus/5/light/set" "on" =
      ⟨[LogEvent.receivedMsg "on" "telldus/5/light/set"], [],
       some PyExc.valueError⟩ :=
  ⟨(c1_thm "telldus/5/light" "7").1 (by decide),
   (c1_thm "telldus/5/light/set" "on").2.1 (by decide) (by decide)⟩

/-- Counterexample for C6: the well-formed message on
`telldus/5/switch/set` with integer payload `7` — equal to neither the
TURNON code 1 nor the TURNOFF code 2 — invokes no controller action, but
contrary to the claim it logs nothing at all: no unsupported-command error
is emitted, because the error arm is an `elif` of the capability chain,
skipped once the `switch` capability has matched. -/
theorem c6_cex :
    (on_message "telldus/5/switch/set" "7").commands = [] ∧
    errorCount (on_message "telldus/5/switch/set" "7").logs = 0 ∧
    (on_message "telldus/5/switch/set" "7").logs =
      [LogEvent.receivedMsg "7" "telldus/5/switch/set"] :=
  ⟨rfl, rfl, rfl⟩

/-- C6 as amended: for a well-formed inbound command matching no dispatch
row, a capability other than `light`, `brightness` and `switch` logs
exactly one unsupported-command error and invokes nothing, whereas the
`switch` capability with a payload equal to neither the TURNON nor the
TURNOFF code invokes nothing and logs no error — the message is dropped
silently. -/
theorem c6_thm (topic payloadRaw p dev cap : String) (n : Int)
    (hsplit : pySplit topic '/' = [p, dev, cap, "set"])
    (hpay : pyInt payloadRaw = some n) :
    (cap ≠ "light" → cap ≠ "brightness" → cap ≠ "switch" →
      (on_message topic payloadRaw).commands = [] ∧
      (on_message topic payloadRaw).logs =
        [LogEvent.receivedMsg payloadRaw topic,
         LogEvent.cmdNotSupported topic payloadRaw] ∧
      errorCount (on_message topic payloadRaw).logs = 1) ∧
    (cap = "switch" → n ≠ TELLSTICK_TURNON → n ≠ TELLSTICK_TURNOFF →
      (on_message topic payloadRaw).commands = [] ∧
      (on_message topic payloadRaw).logs =
        [LogEvent.receivedMsg payloadRaw topic] ∧
      errorCount (on_message topic payloadRaw).logs = 0) := by
  constructor
  · intro h1 h2 h3
    simp [on_message, hsplit, hpay, h1, h2, h3, errorCount, LogEvent.level]
  · intro h1 h2 h3
    subst h1
    simp [on_message, hsplit, hpay, h2, h3, errorCount, LogEvent.level]

/-- Witness for C6 as amended: capability `water` logs one
unsupported-command error with no action, and capability `switch` with
payload `7` does nothing silently. -/
theorem c6_wit :
    ((on_message "telldus/9/water/set" "1").commands = [] ∧
     (on_message "telldus/9/water/set" "1").logs =
       [LogEvent.receivedMsg "1" "telldus/9/water/set",
        LogEvent.cmdNotSupported "telldus/9/water/set" "1"] ∧
     errorCount (on_message "telldus/9/water/set" "1").logs = 1) ∧
    ((on_message "telldus/9/switch/set" "9").commands = [] ∧
     (on_message "telldus/9/switch/set" "9").logs =
       [LogEvent.receivedMsg "9" "telldus/9/switch/set"] ∧
     errorCount (on_message "telldus/9/switch/set" "9").logs = 0) :=
  ⟨(c6_thm "telldus/9/water/set" "1" "telldus" "9" "water" 1
      (by decide) (by decide)).1 (by decide) (by decide) (by decide),
   (c6_thm "telldus/9/switch/set" "9" "telldus" "9" "switch" 9
      (by decide) (by decide)).2 rfl (by decide) (by decide)⟩

/-- Counterexample for C2: a sensor event whose data type 99 is not a known
SensorTypeCode publishes its state on a topic embedding the sentinel:
`telldus/1/UNKNOWN METHOD 99/state`, whose third `/`-separated segment is
exactly the sentinel string, contradicting the claimed fail-closed topic
construction. -/
theorem c2_cex :
    (sensor_event "telldus" [] "proto" "mdl" 1 99 20 "ts").publishes =
      [⟨"telldus/1/UNKNOWN METHOD 99/state", "20", true⟩] ∧
    "UNKNOWN METHOD 99" ∈ pySplit "telldus/1/UNKNOWN METHOD 99/state" '/' :=
  ⟨rfl, by decide⟩

/-- C2 as amended: in `device_event` the sentinel indeed never reaches a
published topic — every device publish goes to the `light`, `brightness` or
`switch` capability topic of its id — but in `sensor_event` an unknown
data-type code does reach the topic: the state publish goes to the topic
built from the sentinel string `UNKNOWN METHOD` followed by the code, which
thus appears as the topic's capability segment. -/
theorem c2_thm :
    (∀ st id_ method data,
      ((device_event st id_ method data).publishes.all fun pc =>
        pc.topic == create_topic st id_ "light" ||
        pc.topic == create_topic st id_ "brightness" ||
        pc.topic == create_topic st id_ "switch") = true) ∧
    (∀ st disc proto mdl id_ dt v ts, dt ∉ knownTypeCodes →
      publish_call (create_topic st id_ ("UNKNOWN METHOD " ++ toString dt))
          (create_topic_data ("UNKNOWN METHOD " ++ toString dt) v) ∈
        (sensor_event st disc proto mdl id_ dt v ts).publishes) := by
  constructor
  · intro st id_ method data
    simp only [device_event]
    split_ifs <;> simp [publish_call]
  · intro st disc proto mdl id_ dt v ts h
    simp [sensor_event, typeString_unknown dt h]

/-- Witness for C2 as amended: the unknown data type 99 makes the sensor
handler publish on the sentinel-bearing topic. -/
theorem c2_wit :
    publish_call (create_topic "telldus" 1 ("UNKNOWN METHOD " ++ toString (99 : Int)))
        (create_topic_data ("UNKNOWN METHOD " ++ toString (99 : Int)) 20) ∈
      (sensor_event "telldus" [] "proto" "mdl" 1 99 20 "ts").publishes :=
  c2_thm.2 "telldus" [] "proto" "mdl" 1 99 20 "ts" (by decide)

end TelldusMqtt
